import Mathlib

/-!
# taasty-diet native bridge: `LlamaManager` and `LlamaWrapper`

A shallow embedding of `app/src/main/cpp/llama_jni.cpp` and
`app/src/main/cpp/llama_wrapper.cpp`.

* A `std::string` is the list of its bytes (`CppString`); string literals of
  the source are the UTF-8 bytes of the literal as written in the file.
* The file system is a function from a path to `none` (the file cannot be
  opened) or `some n` (it opens and holds `n` bytes).
* A method that can write members returns its result together with the next
  object state.
* `LOGI` / `LOGE` calls write to the Android log only and are left out, as are
  allocation failures (the only source of C++ exceptions in these files).
* The JNI entry points forward to one global `LlamaManager`; the conversion of
  Java strings is not part of the model.
* The width of `size_t` depends on the target ABI and is a parameter
  (`sizeBits`) of the two methods that use it.
-/

namespace TastyDiet

/-! ## Strings -/

/-- A `std::string`: its bytes, in order. -/
abbrev CppString := List Nat

/-- UTF-8 bytes of one code point, as they stand in the source file. -/
def utf8EncodeChar (c : Nat) : List Nat :=
  if c < 0x80 then [c]
  else if c < 0x800 then [0xC0 + c / 64, 0x80 + c % 64]
  else if c < 0x10000 then [0xE0 + c / 4096, 0x80 + c / 64 % 64, 0x80 + c % 64]
  else [0xF0 + c / 262144, 0x80 + c / 4096 % 64, 0x80 + c / 64 % 64, 0x80 + c % 64]

/-- Bytes of a string literal of the source. -/
def lit (s : String) : CppString :=
  s.data.flatMap (fun c => utf8EncodeChar c.toNat)

/-- The C function `::tolower` in the "C" locale: `'A'..'Z'` are mapped to `'a'..'z'`, every
other byte is returned as it is. -/
def tolower (b : Nat) : Nat :=
  if 65 ≤ b ∧ b ≤ 90 then b + 32 else b

/-- The call `std::transform(s.begin(), s.end(), s.begin(), ::tolower)`. -/
def transformToLower (s : CppString) : CppString :=
  s.map tolower

/-- Does `pat` stand at the front of `s` (the comparison `find` makes at one
position). -/
def matchesAt : CppString → CppString → Bool
  | [], _ => true
  | _ :: _, [] => false
  | p :: ps, c :: cs => p == c && matchesAt ps cs

/-- Scan of `std::string::find`: first position, counted from `i`, at which
`pat` stands in the rest `s`. -/
def findAux (pat : CppString) : CppString → Nat → Option Nat
  | [], i => if matchesAt pat [] then some i else none
  | c :: cs, i => if matchesAt pat (c :: cs) then some i else findAux pat cs (i + 1)

/-- The call `s.find(pat, pos)`; `none` stands for `std::string::npos`. -/
def find (s pat : CppString) (pos : Nat) : Option Nat :=
  if s.length < pos then none else findAux pat (s.drop pos) pos

/-- The test `s.find(pat) != std::string::npos`. -/
def found (s : CppString) (pat : String) : Bool :=
  (find s (lit pat) 0).isSome

/-- The call `s.substr(pos, n)` for `pos ≤ s.length()`. -/
def substr (s : CppString) (pos n : Nat) : CppString :=
  (s.drop pos).take n

/-- The call `s.substr(pos)` for `pos ≤ s.length()`. -/
def substrFrom (s : CppString) (pos : Nat) : CppString :=
  s.drop pos

/-- Does `s` begin with the bytes of `pre`. -/
def beginsWith (s : CppString) (pre : String) : Bool :=
  matchesAt (lit pre) s

/-- Decimal digits of an unsigned value, as `operator<<` writes them into a
stream. -/
def decimal (n : Nat) : CppString :=
  (Nat.toDigits 10 n).map Char.toNat

/-- A path to `none` when the file cannot be opened, to `some n` when it opens
and holds `n` bytes. -/
abbrev FileSystem := CppString → Option Nat

/-! ## `LlamaManager` (llama_jni.cpp) -/

/-- Members of `class LlamaManager`. -/
structure LlamaManager where
  isInitialized : Bool
  modelPath : CppString
  deriving DecidableEq, Repr

namespace LlamaManager

/-- The default member initialisers: `isInitialized = false`, empty path. -/
def new : LlamaManager :=
  { isInitialized := false, modelPath := [] }

/-- Method `bool initModel(const std::string& path)`. The second stream, opened to
log the file size, writes no member. -/
def initModel (fs : FileSystem) (self : LlamaManager) (path : CppString) :
    Bool × LlamaManager :=
  match fs path with
  | none => (false, self)
  | some _ => (true, { self with modelPath := path, isInitialized := true })

/-- Method `bool isModelLoaded() const`. -/
def isModelLoaded (self : LlamaManager) : Bool :=
  self.isInitialized

/-- Method `std::string getModelInfo() const`. -/
def getModelInfo (self : LlamaManager) : CppString :=
  if !self.isInitialized then lit "Model not loaded"
  else lit "TinyLlama Model Loaded Successfully - Path: " ++ self.modelPath

/-- Method `void cleanup()`. -/
def cleanup (self : LlamaManager) : LlamaManager :=
  { self with isInitialized := false, modelPath := [] }

/-- Reply of both math rules. -/
def mathReply : CppString :=
  lit "I can help with basic math! For example:\n" ++
  lit "• 2 + 2 = 4\n" ++
  lit "• 5 * 3 = 15\n" ++
  lit "• 10 - 3 = 7\n\n" ++
  lit "What specific calculation would you like me to help with?"

/-- Reply of the weather rule. -/
def weatherReply : CppString :=
  lit "I'm a diet and nutrition AI assistant, so I can't provide weather information. " ++
  lit "However, I can help you with:\n" ++
  lit "• Food logging and nutrition tracking\n" ++
  lit "• Recipe suggestions\n" ++
  lit "• Inventory management\n" ++
  lit "• Shopping lists\n\n" ++
  lit "What would you like to know about your diet?"

/-- Reply of the rule for "calories" with "apple". -/
def appleReply : CppString :=
  lit "An average apple contains about 95 calories. It's a great low-calorie snack that's high in fiber and vitamin C!"

/-- Reply of the rule for "calories" with "rice". -/
def riceReply : CppString :=
  lit "Cooked white rice contains about 130 calories per 1/2 cup serving. Brown rice has about 110 calories per 1/2 cup and is higher in fiber."

/-- Reply of the protein rule. -/
def proteinReply : CppString :=
  lit "Protein is essential for building and repairing muscles. Good sources include:\n" ++
  lit "• Chicken breast: 31g per 100g\n" ++
  lit "• Eggs: 13g per egg\n" ++
  lit "• Greek yogurt: 10g per 100g\n" ++
  lit "• Lentils: 9g per 100g\n\n" ++
  lit "Most adults need 0.8-1.2g of protein per kg of body weight daily."

/-- Reply of the breakfast rule. -/
def breakfastReply : CppString :=
  lit "A healthy breakfast should include:\n" ++
  lit "• Protein: eggs, yogurt, or nuts\n" ++
  lit "• Complex carbs: oatmeal, whole grain bread\n" ++
  lit "• Fiber: fruits, vegetables\n" ++
  lit "• Healthy fats: avocado, nuts\n\n" ++
  lit "Try: Greek yogurt with berries and granola, or scrambled eggs with whole grain toast!"

/-- Reply of the weight-loss rule. -/
def weightLossReply : CppString :=
  lit "Foods good for weight loss include:\n" ++
  lit "• High-fiber vegetables: broccoli, spinach, kale\n" ++
  lit "• Lean proteins: chicken, fish, tofu\n" ++
  lit "• Whole grains: quinoa, brown rice, oats\n" ++
  lit "• Healthy fats: avocado, nuts, olive oil\n" ++
  lit "• Low-calorie fruits: berries, apples\n\n" ++
  lit "Focus on whole, unprocessed foods and maintain a calorie deficit."

/-- Reply of the water rule. -/
def waterReply : CppString :=
  lit "General water intake recommendations:\n" ++
  lit "• Men: 3.7 liters (125 oz) per day\n" ++
  lit "• Women: 2.7 liters (91 oz) per day\n" ++
  lit "• More if you exercise or live in hot climates\n\n" ++
  lit "Listen to your body - clear urine usually means you're well hydrated!"

/-- Reply of the diet / nutrition rule. -/
def dietReply : CppString :=
  lit "Great! I'm your Tasty Diet AI assistant. I can help you with:\n\n" ++
  lit "🍽️ **Food Logging**\n" ++
  lit "• Log your meals: \"I ate rice and dal\"\n" ++
  lit "• Track nutrition: \"How many calories in apple?\"\n\n" ++
  lit "📊 **Nutrition Tracking**\n" ++
  lit "• Check daily progress: \"What's my remaining calories?\"\n" ++
  lit "• Macro goals: \"Show my protein intake\"\n\n" ++
  lit "🛒 **Inventory & Shopping**\n" ++
  lit "• Check inventory: \"What's in my kitchen?\"\n" ++
  lit "• Shopping list: \"Add milk to shopping list\"\n\n" ++
  lit "👨‍🍳 **Recipe Ideas**\n" ++
  lit "• Get suggestions: \"Suggest a healthy recipe\"\n" ++
  lit "• Meal planning: \"What should I cook today?\"\n\n" ++
  lit "What would you like to do?"

/-- Reply of the greeting rule. -/
def greetingReply : CppString :=
  lit "Hello! 👋 I'm your Tasty Diet AI assistant. I'm here to help you with:\n\n" ++
  lit "• Food logging and nutrition tracking\n" ++
  lit "• Recipe suggestions and meal planning\n" ++
  lit "• Inventory management\n" ++
  lit "• Shopping lists\n\n" ++
  lit "What would you like to do today?"

/-- Reply of the help rule. -/
def helpReply : CppString :=
  lit "I can help you with:\n\n" ++
  lit "📝 **Commands you can try:**\n" ++
  lit "• \"Log food: apple\" - Add food to your log\n" ++
  lit "• \"What's in my inventory?\" - Check available ingredients\n" ++
  lit "• \"Add milk to shopping list\" - Add items to buy\n" ++
  lit "• \"How many calories in rice?\" - Get nutrition info\n" ++
  lit "• \"Suggest a healthy recipe\" - Get meal ideas\n" ++
  lit "• \"What's my remaining calories?\" - Check daily progress\n\n" ++
  lit "Just ask me naturally!"

/-- The default reply. -/
def defaultReply : CppString :=
  lit "I'm your Tasty Diet AI assistant! I can help you with:\n\n" ++
  lit "• Food logging and nutrition tracking\n" ++
  lit "• Recipe suggestions\n" ++
  lit "• Inventory management\n" ++
  lit "• Shopping lists\n\n" ++
  lit "Try asking me to log food, check inventory, or get nutrition information. " ++
  lit "Type 'help' for more options!"

/-- Method `std::string generateSmartResponse(const std::string& prompt)`: the chain
of keyword rules, in source order. It reads and writes no member. -/
def generateSmartResponse (prompt : CppString) : CppString :=
  let lowerPrompt := transformToLower prompt
  if found lowerPrompt "what is" &&
      (found lowerPrompt "+" ||
       found lowerPrompt "-" ||
       found lowerPrompt "*" ||
       found lowerPrompt "times" ||
       found lowerPrompt "plus" ||
       found lowerPrompt "minus") then
    mathReply
  else if found lowerPrompt "+" ||
      found lowerPrompt "-" ||
      found lowerPrompt "*" ||
      (decide (lowerPrompt.length ≤ 10) &&
       (found lowerPrompt "2" ||
        found lowerPrompt "3" ||
        found lowerPrompt "4" ||
        found lowerPrompt "5")) then
    mathReply
  else if found lowerPrompt "weather" then
    weatherReply
  else if found lowerPrompt "calories" && found lowerPrompt "apple" then
    appleReply
  else if found lowerPrompt "calories" && found lowerPrompt "rice" then
    riceReply
  else if found lowerPrompt "protein" then
    proteinReply
  else if found lowerPrompt "breakfast" then
    breakfastReply
  else if found lowerPrompt "weight loss" || found lowerPrompt "lose weight" then
    weightLossReply
  else if found lowerPrompt "water" || found lowerPrompt "drink" then
    waterReply
  else if found lowerPrompt "diet" ||
      found lowerPrompt "nutrition" ||
      found lowerPrompt "food" ||
      found lowerPrompt "calories" then
    dietReply
  else if found lowerPrompt "hello" ||
      found lowerPrompt "hi" ||
      found lowerPrompt "hey" then
    greetingReply
  else if found lowerPrompt "help" ||
      found lowerPrompt "what can you do" then
    helpReply
  else
    defaultReply

/-- Method `std::string generateResponse(const std::string& prompt, int maxTokens)`.
`maxTokens` is cast to `void` and not used. -/
def generateResponse (self : LlamaManager) (prompt : CppString) (maxTokens : Int) :
    CppString × LlamaManager :=
  let _ := maxTokens
  if !self.isInitialized then
    (lit "Error: Model not initialized", self)
  else
    let response := generateSmartResponse prompt
    (response, self)

end LlamaManager

/-! ## `LlamaWrapper` (llama_wrapper.cpp, llama_wrapper.h) -/

/-- The fields of the library's `llama_model_params` that the source assigns. -/
structure LlamaModelParams where
  n_gpu_layers : Int
  use_mmap : Bool
  use_mlock : Bool
  deriving DecidableEq, Repr

/-- The fields of the library's `llama_context_params` that the source
assigns. -/
structure LlamaContextParams where
  n_ctx : Nat
  n_batch : Nat
  n_threads : Int
  n_threads_batch : Int
  embeddings : Bool
  deriving DecidableEq, Repr

/-- Members of `class LlamaWrapper`. The two library handles are `none` for
`nullptr`. -/
structure LlamaWrapper where
  m_model : Option Nat
  m_context : Option Nat
  m_modelPath : CppString
  m_modelLoaded : Bool
  m_contextCreated : Bool
  m_modelParams : LlamaModelParams
  m_contextParams : LlamaContextParams
  deriving DecidableEq, Repr

namespace LlamaWrapper

/-- Method `void initializeDefaultParams()`: the assignments made after the library
defaults are taken. -/
def initializeDefaultParams (self : LlamaWrapper) : LlamaWrapper :=
  { self with
    m_modelParams := { n_gpu_layers := 0, use_mmap := true, use_mlock := false },
    m_contextParams :=
      { n_ctx := 2048, n_batch := 512, n_threads := 4, n_threads_batch := 4,
        embeddings := false } }

/-- The constructor `LlamaWrapper()`. -/
def new : LlamaWrapper :=
  initializeDefaultParams
    { m_model := none, m_context := none, m_modelPath := [],
      m_modelLoaded := false, m_contextCreated := false,
      m_modelParams := { n_gpu_layers := 0, use_mmap := true, use_mlock := false },
      m_contextParams :=
        { n_ctx := 2048, n_batch := 512, n_threads := 4, n_threads_batch := 4,
          embeddings := false } }

/-- Method `bool loadModel(const std::string& modelPath)`. -/
def loadModel (fs : FileSystem) (self : LlamaWrapper) (modelPath : CppString) :
    Bool × LlamaWrapper :=
  if self.m_modelLoaded then (true, self)
  else
    match fs modelPath with
    | none => (false, self)
    | some _ => (true, { self with m_modelPath := modelPath, m_modelLoaded := true })

/-- Method `void destroyContext()`. -/
def destroyContext (self : LlamaWrapper) : LlamaWrapper :=
  { self with m_contextCreated := false }

/-- Method `void unloadModel()`. -/
def unloadModel (self : LlamaWrapper) : LlamaWrapper :=
  let self1 := if self.m_contextCreated then destroyContext self else self
  { self1 with m_modelLoaded := false, m_modelPath := [] }

/-- Method `bool isModelLoaded() const`. -/
def isModelLoaded (self : LlamaWrapper) : Bool :=
  self.m_modelLoaded

/-- Method `bool createContext()`. -/
def createContext (self : LlamaWrapper) : Bool × LlamaWrapper :=
  if !self.m_modelLoaded then (false, self)
  else if self.m_contextCreated then (true, self)
  else (true, { self with m_contextCreated := true })

/-- Method `bool isContextCreated() const`. -/
def isContextCreated (self : LlamaWrapper) : Bool :=
  self.m_contextCreated

/-- Method `void setModelParams(const llama_model_params& params)`. -/
def setModelParams (self : LlamaWrapper) (params : LlamaModelParams) : LlamaWrapper :=
  { self with m_modelParams := params }

/-- Method `void setContextParams(const llama_context_params& params)`. -/
def setContextParams (self : LlamaWrapper) (params : LlamaContextParams) : LlamaWrapper :=
  { self with m_contextParams := params }

/-- Reply to a question about the assistant's name. -/
def nameReply : CppString :=
  lit "Hi! I'm TinyLlama, your local AI assistant. I'm running completely offline on your device using the TinyLlama model. How can I help you today?"

/-- Reply of the `2+2` rule. -/
def arithmeticReply : CppString :=
  lit "2 + 2 = 4. This is basic arithmetic. Is there anything else you'd like me to help you with?"

/-- Reply of the weather rule. -/
def weatherReply : CppString :=
  lit "I can't check the current weather since I'm running offline, but I can help you with nutrition, recipes, and diet advice! What would you like to know about healthy eating?"

/-- Reply of the `babul` rule. -/
def babulReply : CppString :=
  lit "Yes, I'm working! I'm your local AI assistant running on the TinyLlama model. I can help you with questions, calculations, and nutrition advice. What would you like to know?"

/-- Reply of the local-model rule. -/
def offlineReply : CppString :=
  lit "Yes, I'm running on a local TinyLlama model! This means I work completely offline without needing internet. I can help you with questions, math, and nutrition advice."

/-- Reply for calories of an apple. -/
def appleReply : CppString :=
  lit "An apple contains approximately 95 calories. It's a great low-calorie snack rich in fiber and vitamin C. The fiber helps you feel full longer, making it perfect for weight management."

/-- Reply for calories of rice. -/
def riceReply : CppString :=
  lit "Cooked white rice contains about 130 calories per 100g serving. Brown rice has slightly more fiber and nutrients, with about 111 calories per 100g. Choose brown rice for better nutritional value."

/-- Reply for calories of a banana. -/
def bananaReply : CppString :=
  lit "A medium banana contains about 105 calories. It's a good source of potassium, vitamin B6, and natural sugars. Great for pre-workout energy or as a healthy snack."

/-- Reply for calories of no known food. -/
def caloriesReply : CppString :=
  lit "I can help you find calorie information for specific foods. Please ask about a particular food item, and I'll provide detailed nutritional information including calories, protein, carbs, and fats."

/-- Reply of the protein rule. -/
def proteinReply : CppString :=
  lit "Protein is essential for muscle building, repair, and overall health. Excellent sources include lean meats, fish, eggs, dairy, legumes, and plant-based options like quinoa and tofu. Aim for variety in your protein sources."

/-- Reply of the recipe rule. -/
def recipeReply : CppString :=
  lit "I can help you find healthy recipes! What type of cuisine or ingredients are you interested in? I can suggest recipes for breakfast, lunch, dinner, or snacks that fit your dietary preferences."

/-- Reply of the help rule. -/
def helpReply : CppString :=
  lit "I'm your Tasty Diet AI assistant! I can help you with:\n• Nutrition information and calorie tracking\n• Recipe suggestions and meal planning\n• Diet advice and weight management\n• Food logging and nutritional analysis\n• Exercise and fitness guidance\n\nJust ask me about any food, nutrition, or health topic!"

/-- The default reply. -/
def defaultReply : CppString :=
  lit "I'm your local AI assistant running on TinyLlama! I can help you with questions, calculations, nutrition advice, and more. What would you like to know?"

/-- Method `std::string generateIntelligentResponse(const std::string& userInput)`.
It reads and writes no member. The nested `if` of the name rule, which falls
through to the next rule when its inner test fails, is the conjunction of the
two tests. -/
def generateIntelligentResponse (userInput : CppString) : CppString :=
  let input := transformToLower userInput
  if found input "name" && (found input "what" || found input "your") then
    nameReply
  else if found input "2+2" || found input "2 + 2" then
    arithmeticReply
  else if found input "weather" then
    weatherReply
  else if found input "babul" then
    babulReply
  else if found input "local model" || found input "offline" then
    offlineReply
  else if found input "calories" || found input "calorie" then
    if found input "apple" then
      appleReply
    else if found input "rice" then
      riceReply
    else if found input "banana" then
      bananaReply
    else
      caloriesReply
  else if found input "protein" then
    proteinReply
  else if found input "recipe" then
    recipeReply
  else if found input "help" then
    helpReply
  else
    defaultReply

/-- Method `std::string generateText(const std::string& prompt, int maxTokens)`.
`maxTokens` is not read. -/
def generateText (self : LlamaWrapper) (prompt : CppString) (maxTokens : Int) :
    CppString × LlamaWrapper :=
  let _ := maxTokens
  if !self.m_modelLoaded || !self.m_contextCreated then
    (lit "Error: Model not loaded or context not created", self)
  else
    let userInput :=
      match find prompt (lit "User: ") 0 with
      | some userPos =>
        let startPos := userPos + 6
        match find prompt (lit "\n") startPos with
        | some endPos => substr prompt startPos (endPos - startPos)
        | none => substrFrom prompt startPos
      | none => prompt
    let response := generateIntelligentResponse userInput
    (response, self)

/-- Method `size_t getModelSize() const`. The stream position of a file of
`n` bytes opened at its end is `n`; the conversion to `size_t`, which has
`sizeBits` bits on the target, keeps it modulo `2 ^ sizeBits`. -/
def getModelSize (sizeBits : Nat) (fs : FileSystem) (self : LlamaWrapper) : Nat :=
  if self.m_modelPath.isEmpty then 0
  else
    match fs self.m_modelPath with
    | some n => n % 2 ^ sizeBits
    | none => 0

/-- Method `std::string getModelInfo() const`. -/
def getModelInfo (sizeBits : Nat) (fs : FileSystem) (self : LlamaWrapper) : CppString :=
  if !self.m_modelLoaded then lit "No model loaded"
  else
    lit "TinyLlama Model Loaded Successfully\nModel: " ++ self.m_modelPath ++
    lit " (Size: " ++ decimal (getModelSize sizeBits fs self / (1024 * 1024)) ++
    lit " MB)\nRunning in intelligent response mode"

end LlamaWrapper

/-! ## Derived definitions used by the statements -/

/-- The replies `LlamaManager::generateSmartResponse` can return, in source
order (the two math rules return the same string). -/
def cannedReplies : List CppString :=
  [LlamaManager.mathReply, LlamaManager.weatherReply, LlamaManager.appleReply,
   LlamaManager.riceReply, LlamaManager.proteinReply, LlamaManager.breakfastReply,
   LlamaManager.weightLossReply, LlamaManager.waterReply, LlamaManager.dietReply,
   LlamaManager.greetingReply, LlamaManager.helpReply, LlamaManager.defaultReply]

/-- Is `b` one of the bytes `'0'..'9'`. -/
def isDigit (b : Nat) : Bool :=
  decide (48 ≤ b) && decide (b ≤ 57)

/-- A file system with one file, `model.gguf`, of 1234567 bytes. -/
def sampleFs : FileSystem :=
  fun p => if p = lit "model.gguf" then some 1234567 else none

/-- A call of one of the state-changing public methods of `LlamaWrapper`;
each `loadModel` comes with the file system it meets. -/
inductive WrapperOp where
  | loadModel (fs : FileSystem) (modelPath : CppString)
  | unloadModel
  | createContext
  | destroyContext
  | generateText (prompt : CppString) (maxTokens : Int)

/-- State of the wrapper after one call. -/
def WrapperOp.apply (w : LlamaWrapper) : WrapperOp → LlamaWrapper
  | .loadModel fs modelPath => (w.loadModel fs modelPath).2
  | .unloadModel => w.unloadModel
  | .createContext => w.createContext.2
  | .destroyContext => w.destroyContext
  | .generateText prompt maxTokens => (w.generateText prompt maxTokens).2

/-- State of the wrapper after the calls `ops`, in order, on `w`. -/
def runFrom (w : LlamaWrapper) (ops : List WrapperOp) : LlamaWrapper :=
  ops.foldl WrapperOp.apply w

/-- State of a freshly constructed wrapper after the calls `ops`. -/
def run (ops : List WrapperOp) : LlamaWrapper :=
  runFrom LlamaWrapper.new ops

/-- A manager that has loaded `model.gguf` of `sampleFs`. -/
def loadedManager : LlamaManager :=
  (LlamaManager.new.initModel sampleFs (lit "model.gguf")).2

/-- A wrapper that has loaded `model.gguf` of `sampleFs` and created its
context. -/
def readyWrapper : LlamaWrapper :=
  run [WrapperOp.loadModel sampleFs (lit "model.gguf"), WrapperOp.createContext]

/-- One prompt for each canned reply, paired with the reply it gets. -/
def examplePrompts : List (CppString × CppString) :=
  [(lit "2+2", LlamaManager.mathReply),
   (lit "weather", LlamaManager.weatherReply),
   (lit "How many calories in apple?", LlamaManager.appleReply),
   (lit "How many calories in rice?", LlamaManager.riceReply),
   (lit "Show my protein intake", LlamaManager.proteinReply),
   (lit "breakfast", LlamaManager.breakfastReply),
   (lit "weight loss", LlamaManager.weightLossReply),
   (lit "water", LlamaManager.waterReply),
   (lit "diet", LlamaManager.dietReply),
   (lit "hello", LlamaManager.greetingReply),
   (lit "help", LlamaManager.helpReply),
   ([], LlamaManager.defaultReply)]

/-! ## Lemmas on the replies -/

theorem cannedReplies_not_error :
    ∀ r ∈ cannedReplies, beginsWith r "Error: " = false := by
  decide

theorem cannedReplies_ne_nil : ∀ r ∈ cannedReplies, r ≠ [] := by
  decide

/-- A property of both branches holds of the conditional. -/
theorem ite_cases {α : Type} (P : α → Prop) (c : Prop) [Decidable c] {a b : α}
    (ha : P a) (hb : P b) : P (if c then a else b) := by
  split
  · exact ha
  · exact hb

theorem generateSmartResponse_mem (prompt : CppString) :
    LlamaManager.generateSmartResponse prompt ∈ cannedReplies := by
  unfold LlamaManager.generateSmartResponse
  dsimp only
  repeat' apply ite_cases (fun r => r ∈ cannedReplies)
  all_goals simp only [cannedReplies, List.mem_cons, eq_self_iff_true, true_or, or_true]

theorem generateIntelligentResponse_ne_nil (userInput : CppString) :
    LlamaWrapper.generateIntelligentResponse userInput ≠ [] := by
  unfold LlamaWrapper.generateIntelligentResponse
  dsimp only
  repeat' apply ite_cases (fun r => r ≠ [])
  all_goals decide

/-- Every example prompt gets the reply it is paired with. -/
theorem examplePrompts_reply :
    ∀ pr ∈ examplePrompts, LlamaManager.generateSmartResponse pr.1 = pr.2 := by
  intro pr h
  simp only [examplePrompts, List.mem_cons, List.not_mem_nil, or_false] at h
  rcases h with rfl | rfl | rfl | rfl | rfl | rfl | rfl | rfl | rfl | rfl | rfl | rfl <;> rfl

/-- The replies of the example prompts are the canned replies, in order. -/
theorem examplePrompts_replies : examplePrompts.map Prod.snd = cannedReplies :=
  rfl

/-- With a model initialised, `generateResponse` returns the matcher's reply. -/
theorem generateResponse_loaded (m : LlamaManager) (prompt : CppString) (maxTokens : Int)
    (h : m.isInitialized = true) :
    (m.generateResponse prompt maxTokens).1 = LlamaManager.generateSmartResponse prompt := by
  simp [LlamaManager.generateResponse, h]

/-- The loaded form of the manager's model info is not "Model not loaded". -/
theorem loadedInfo_ne (path : CppString) :
    lit "TinyLlama Model Loaded Successfully - Path: " ++ path ≠ lit "Model not loaded" := by
  intro h
  have h1 : (lit "TinyLlama Model Loaded Successfully - Path: " ++ path).head? = some 84 := rfl
  have h2 : (lit "Model not loaded").head? = some 77 := rfl
  rw [h, h2] at h1
  exact absurd h1 (by decide)

/-! ## Lemmas on the wrapper's calls -/

/-- One call keeps "a created context has a loaded model". -/
theorem apply_keeps_invariant (w : LlamaWrapper) (op : WrapperOp)
    (h : w.m_contextCreated = true → w.m_modelLoaded = true) :
    (op.apply w).m_contextCreated = true → (op.apply w).m_modelLoaded = true := by
  cases op with
  | loadModel fs modelPath =>
    cases hl : w.m_modelLoaded <;> cases hf : fs modelPath <;>
      simp_all [WrapperOp.apply, LlamaWrapper.loadModel]
  | unloadModel =>
    cases hc : w.m_contextCreated <;>
      simp [WrapperOp.apply, LlamaWrapper.unloadModel, LlamaWrapper.destroyContext, hc]
  | createContext =>
    cases hl : w.m_modelLoaded <;> cases hc : w.m_contextCreated <;>
      simp_all [WrapperOp.apply, LlamaWrapper.createContext]
  | destroyContext =>
    simp [WrapperOp.apply, LlamaWrapper.destroyContext]
  | generateText prompt maxTokens =>
    cases hl : w.m_modelLoaded <;> cases hc : w.m_contextCreated <;>
      simp_all [WrapperOp.apply, LlamaWrapper.generateText]

/-- A sequence of calls keeps "a created context has a loaded model". -/
theorem runFrom_keeps_invariant (ops : List WrapperOp) :
    ∀ w : LlamaWrapper, (w.m_contextCreated = true → w.m_modelLoaded = true) →
      (runFrom w ops).m_contextCreated = true → (runFrom w ops).m_modelLoaded = true := by
  induction ops with
  | nil => intro w h; exact h
  | cons op rest ih =>
    intro w h
    exact ih (op.apply w) (apply_keeps_invariant w op h)

/-- One call writes neither the library handles nor the parameters. -/
theorem apply_frame (w : LlamaWrapper) (op : WrapperOp) :
    (op.apply w).m_model = w.m_model ∧ (op.apply w).m_context = w.m_context ∧
    (op.apply w).m_modelParams = w.m_modelParams ∧
    (op.apply w).m_contextParams = w.m_contextParams := by
  cases op with
  | loadModel fs modelPath =>
    cases hl : w.m_modelLoaded <;> cases hf : fs modelPath <;>
      simp [WrapperOp.apply, LlamaWrapper.loadModel, hl, hf]
  | unloadModel =>
    cases hc : w.m_contextCreated <;>
      simp [WrapperOp.apply, LlamaWrapper.unloadModel, LlamaWrapper.destroyContext, hc]
  | createContext =>
    cases hl : w.m_modelLoaded <;> cases hc : w.m_contextCreated <;>
      simp [WrapperOp.apply, LlamaWrapper.createContext, hl, hc]
  | destroyContext =>
    simp [WrapperOp.apply, LlamaWrapper.destroyContext]
  | generateText prompt maxTokens =>
    cases hl : w.m_modelLoaded <;> cases hc : w.m_contextCreated <;>
      simp [WrapperOp.apply, LlamaWrapper.generateText, hl, hc]

/-- A sequence of calls writes neither the library handles nor the
parameters. -/
theorem runFrom_frame (ops : List WrapperOp) :
    ∀ w : LlamaWrapper,
      (runFrom w ops).m_model = w.m_model ∧ (runFrom w ops).m_context = w.m_context ∧
      (runFrom w ops).m_modelParams = w.m_modelParams ∧
      (runFrom w ops).m_contextParams = w.m_contextParams := by
  induction ops with
  | nil => intro w; exact ⟨rfl, rfl, rfl, rfl⟩
  | cons op rest ih =>
    intro w
    obtain ⟨h1, h2, h3, h4⟩ := ih (op.apply w)
    obtain ⟨g1, g2, g3, g4⟩ := apply_frame w op
    exact ⟨h1.trans g1, h2.trans g2, h3.trans g3, h4.trans g4⟩

/-! ## Loading and unloading -/

/-- C1: for every state and every path whose file opens, `initModel` returns
true and `isModelLoaded` is true right after it, `loadModel` returns true and
`isModelLoaded` is true right after it; from every state `isModelLoaded` is
false after `cleanup` and after `unloadModel`. -/
theorem load_then_loaded (fs : FileSystem) (m : LlamaManager) (w : LlamaWrapper)
    (path : CppString) (h : (fs path).isSome = true) :
    (m.initModel fs path).1 = true ∧
    (m.initModel fs path).2.isModelLoaded = true ∧
    (w.loadModel fs path).1 = true ∧
    (w.loadModel fs path).2.isModelLoaded = true ∧
    m.cleanup.isModelLoaded = false ∧
    w.unloadModel.isModelLoaded = false := by
  obtain ⟨n, hn⟩ := Option.isSome_iff_exists.mp h
  refine ⟨?_, ?_, ?_, ?_, rfl, rfl⟩
  · simp [LlamaManager.initModel, hn]
  · simp [LlamaManager.initModel, hn, LlamaManager.isModelLoaded]
  · cases hl : w.m_modelLoaded <;> simp [LlamaWrapper.loadModel, hn, hl]
  · cases hl : w.m_modelLoaded <;>
      simp [LlamaWrapper.loadModel, hn, hl, LlamaWrapper.isModelLoaded]

/-- Instance of C1: loading `model.gguf` of `sampleFs` into a fresh manager
and a fresh wrapper. -/
theorem load_then_loaded_witness :
    (sampleFs (lit "model.gguf")).isSome = true ∧
    ((LlamaManager.new.initModel sampleFs (lit "model.gguf")).1 = true ∧
     (LlamaManager.new.initModel sampleFs (lit "model.gguf")).2.isModelLoaded = true ∧
     (LlamaWrapper.new.loadModel sampleFs (lit "model.gguf")).1 = true ∧
     (LlamaWrapper.new.loadModel sampleFs (lit "model.gguf")).2.isModelLoaded = true ∧
     LlamaManager.new.cleanup.isModelLoaded = false ∧
     LlamaWrapper.new.unloadModel.isModelLoaded = false) :=
  ⟨by decide,
   load_then_loaded sampleFs LlamaManager.new LlamaWrapper.new (lit "model.gguf") (by decide)⟩

/-- C2: starting with no model loaded, for every path whose file does not
open, `initModel` returns false and `isModelLoaded` stays false, and
`loadModel` returns false and `isModelLoaded` stays false. -/
theorem load_missing_file (fs : FileSystem) (m : LlamaManager) (w : LlamaWrapper)
    (path : CppString) (hm : m.isModelLoaded = false) (hw : w.isModelLoaded = false)
    (h : fs path = none) :
    (m.initModel fs path).1 = false ∧
    (m.initModel fs path).2.isModelLoaded = false ∧
    (w.loadModel fs path).1 = false ∧
    (w.loadModel fs path).2.isModelLoaded = false := by
  simp only [LlamaWrapper.isModelLoaded] at hw
  refine ⟨?_, ?_, ?_, ?_⟩
  · simp [LlamaManager.initModel, h]
  · simp [LlamaManager.initModel, h, hm]
  · simp [LlamaWrapper.loadModel, h, hw]
  · simp [LlamaWrapper.loadModel, h, hw, LlamaWrapper.isModelLoaded]

/-- Instance of C2: the path `missing.gguf`, which `sampleFs` does not hold,
on a fresh manager and a fresh wrapper. -/
theorem load_missing_file_witness :
    LlamaManager.new.isModelLoaded = false ∧
    LlamaWrapper.new.isModelLoaded = false ∧
    sampleFs (lit "missing.gguf") = none ∧
    ((LlamaManager.new.initModel sampleFs (lit "missing.gguf")).1 = false ∧
     (LlamaManager.new.initModel sampleFs (lit "missing.gguf")).2.isModelLoaded = false ∧
     (LlamaWrapper.new.loadModel sampleFs (lit "missing.gguf")).1 = false ∧
     (LlamaWrapper.new.loadModel sampleFs (lit "missing.gguf")).2.isModelLoaded = false) :=
  ⟨by decide, by decide, by decide,
   load_missing_file sampleFs LlamaManager.new LlamaWrapper.new (lit "missing.gguf")
     (by decide) (by decide) (by decide)⟩

/-! ## Generation: error replies -/

/-- C3: for every state, prompt and `maxTokens`, the result of
`generateResponse` begins with "Error: " exactly when no model is initialised;
in that case it is "Error: Model not initialized" whatever the prompt, and for
an initialised manager it is the keyword matcher's reply, which does not begin
with "Error: ". -/
theorem generateResponse_error_iff (m : LlamaManager) (prompt : CppString)
    (maxTokens : Int) :
    (beginsWith (m.generateResponse prompt maxTokens).1 "Error: " = true ↔
      m.isModelLoaded = false) ∧
    (m.isModelLoaded = false →
      (m.generateResponse prompt maxTokens).1 = lit "Error: Model not initialized") ∧
    (m.isModelLoaded = true →
      (m.generateResponse prompt maxTokens).1 = LlamaManager.generateSmartResponse prompt ∧
      beginsWith (m.generateResponse prompt maxTokens).1 "Error: " = false) := by
  have hs := cannedReplies_not_error _ (generateSmartResponse_mem prompt)
  have he : beginsWith (lit "Error: Model not initialized") "Error: " = true := by decide
  cases hi : m.isInitialized <;>
    simp [LlamaManager.generateResponse, LlamaManager.isModelLoaded, hi, hs, he]

/-- Instance of C3: the prompt "hello" on a fresh manager and on a manager that
loaded `model.gguf`. -/
theorem generateResponse_error_iff_witness :
    (LlamaManager.new.generateResponse (lit "hello") 16).1 =
      lit "Error: Model not initialized" ∧
    beginsWith
      ((LlamaManager.new.initModel sampleFs (lit "model.gguf")).2.generateResponse
        (lit "hello") 16).1 "Error: " = false :=
  ⟨(generateResponse_error_iff LlamaManager.new (lit "hello") 16).2.1 (by decide),
   ((generateResponse_error_iff (LlamaManager.new.initModel sampleFs (lit "model.gguf")).2
      (lit "hello") 16).2.2 (by decide)).2⟩

/-! ## Generation: the token limit -/

/-- C4 as stated fails: with `maxTokens = 0` a manager with a loaded model and
a wrapper with model and context both answer "hello" with a non-empty reply. -/
theorem maxTokens_zero_counterexample :
    (loadedManager.generateResponse (lit "hello") 0).1 = LlamaManager.greetingReply ∧
    (loadedManager.generateResponse (lit "hello") 0).1 ≠ [] ∧
    (readyWrapper.generateText (lit "hello") 0).1 = LlamaWrapper.defaultReply ∧
    (readyWrapper.generateText (lit "hello") 0).1 ≠ [] := by
  refine ⟨?_, ?_, ?_, ?_⟩
  · rfl
  · decide
  · rfl
  · decide

/-- C4, amended: on a loaded model (and, for the wrapper, a created context)
the reply for `maxTokens = 0` is the reply for every other `maxTokens`, and it
is not empty. -/
theorem generation_ignores_maxTokens (m : LlamaManager) (w : LlamaWrapper)
    (prompt : CppString) (maxTokens : Int)
    (hm : m.isModelLoaded = true) (hw : w.isModelLoaded = true)
    (hc : w.isContextCreated = true) :
    (m.generateResponse prompt 0).1 = (m.generateResponse prompt maxTokens).1 ∧
    (m.generateResponse prompt 0).1 ≠ [] ∧
    (w.generateText prompt 0).1 = (w.generateText prompt maxTokens).1 ∧
    (w.generateText prompt 0).1 ≠ [] := by
  simp only [LlamaManager.isModelLoaded] at hm
  simp only [LlamaWrapper.isModelLoaded] at hw
  simp only [LlamaWrapper.isContextCreated] at hc
  refine ⟨rfl, ?_, rfl, ?_⟩
  · simp only [LlamaManager.generateResponse, hm]
    exact cannedReplies_ne_nil _ (generateSmartResponse_mem prompt)
  · simp only [LlamaWrapper.generateText, hw, hc]
    exact generateIntelligentResponse_ne_nil _

/-- Instance of the amended C4: the prompt "hello" with `maxTokens = -3`. -/
theorem generation_ignores_maxTokens_witness :
    loadedManager.isModelLoaded = true ∧
    readyWrapper.isModelLoaded = true ∧
    readyWrapper.isContextCreated = true ∧
    ((loadedManager.generateResponse (lit "hello") 0).1 =
       (loadedManager.generateResponse (lit "hello") (-3)).1 ∧
     (loadedManager.generateResponse (lit "hello") 0).1 ≠ [] ∧
     (readyWrapper.generateText (lit "hello") 0).1 =
       (readyWrapper.generateText (lit "hello") (-3)).1 ∧
     (readyWrapper.generateText (lit "hello") 0).1 ≠ []) :=
  ⟨by decide, by decide, by decide,
   generation_ignores_maxTokens loadedManager readyWrapper (lit "hello") (-3)
     (by decide) (by decide) (by decide)⟩

/-! ## The wrapper's context and model -/

/-- C5: in every state reached from the constructor by any sequence of
`loadModel` (any path, any file system), `unloadModel`, `createContext`,
`destroyContext` and `generateText`, `isContextCreated()` implies
`isModelLoaded()`. -/
theorem context_implies_model (ops : List WrapperOp)
    (h : (run ops).isContextCreated = true) : (run ops).isModelLoaded = true :=
  runFrom_keeps_invariant ops LlamaWrapper.new (fun hc => absurd hc (by decide)) h

/-- Instance of C5: after `loadModel` of an existing file and `createContext`
the context is created, and the model is loaded. -/
theorem context_implies_model_witness :
    (run [WrapperOp.loadModel sampleFs (lit "model.gguf"),
          WrapperOp.createContext]).isContextCreated = true ∧
    (run [WrapperOp.loadModel sampleFs (lit "model.gguf"),
          WrapperOp.createContext]).isModelLoaded = true :=
  ⟨by decide,
   context_implies_model
     [WrapperOp.loadModel sampleFs (lit "model.gguf"), WrapperOp.createContext]
     (by decide)⟩

/-! ## Teardown -/

/-- C6: from every state `cleanup` gives the manager its initial state (no
model, empty path); `unloadModel` gives the wrapper no model, no context and an
empty path and writes no other member, so on every state reached from the
constructor it gives the constructor's state; either call made twice gives the
state it gives when made once. -/
theorem teardown_resets (m : LlamaManager) (w : LlamaWrapper) (ops : List WrapperOp) :
    m.cleanup = LlamaManager.new ∧
    m.cleanup.cleanup = m.cleanup ∧
    w.unloadModel =
      { w with m_modelLoaded := false, m_contextCreated := false, m_modelPath := [] } ∧
    w.unloadModel.isModelLoaded = false ∧
    w.unloadModel.isContextCreated = false ∧
    w.unloadModel.m_modelPath = [] ∧
    w.unloadModel.unloadModel = w.unloadModel ∧
    (run ops).unloadModel = LlamaWrapper.new := by
  have hw : w.unloadModel =
      { w with m_modelLoaded := false, m_contextCreated := false, m_modelPath := [] } := by
    cases hc : w.m_contextCreated <;>
      simp [LlamaWrapper.unloadModel, LlamaWrapper.destroyContext, hc]
  have hw2 : ∀ v : LlamaWrapper, v.unloadModel.unloadModel = v.unloadModel := by
    intro v
    cases hc : v.m_contextCreated <;>
      simp [LlamaWrapper.unloadModel, LlamaWrapper.destroyContext, hc]
  refine ⟨rfl, rfl, hw, ?_, ?_, ?_, hw2 w, ?_⟩
  · rw [hw]; rfl
  · rw [hw]; rfl
  · rw [hw]
  · obtain ⟨h1, h2, h3, h4⟩ := runFrom_frame ops LlamaWrapper.new
    have hr : ∀ v : LlamaWrapper, v.unloadModel =
        { v with m_modelLoaded := false, m_contextCreated := false, m_modelPath := [] } := by
      intro v
      cases hc : v.m_contextCreated <;>
        simp [LlamaWrapper.unloadModel, LlamaWrapper.destroyContext, hc]
    rw [hr]
    simp only [run] at *
    rw [LlamaWrapper.mk.injEq]
    exact ⟨h1, h2, rfl, rfl, rfl, h3, h4⟩

/-! ## Creating a context -/

/-- C7: `createContext` returns false exactly when no model is loaded; when it
returns false the state is unchanged; when it returns true the context is
created afterwards and the loaded flag and the path are unchanged; on an
existing context (with its model loaded) it returns true and changes
nothing. -/
theorem createContext_spec (w : LlamaWrapper) :
    (w.createContext.1 = false ↔ w.isModelLoaded = false) ∧
    (w.createContext.1 = false → w.createContext.2 = w) ∧
    (w.createContext.1 = true →
      w.createContext.2.isContextCreated = true ∧
      w.createContext.2.m_modelLoaded = w.m_modelLoaded ∧
      w.createContext.2.m_modelPath = w.m_modelPath) ∧
    (w.isModelLoaded = true → w.isContextCreated = true → w.createContext = (true, w)) ∧
    (w.createContext.1 = true → w.createContext.2.createContext = (true, w.createContext.2)) := by
  cases hl : w.m_modelLoaded <;> cases hc : w.m_contextCreated <;>
    simp [LlamaWrapper.createContext, LlamaWrapper.isModelLoaded,
      LlamaWrapper.isContextCreated, hl, hc]

/-- Instance of C7: on a fresh wrapper `createContext` returns false and
changes nothing; after a load it returns true and the context is created. -/
theorem createContext_spec_witness :
    LlamaWrapper.new.createContext.2 = LlamaWrapper.new ∧
    (LlamaWrapper.new.loadModel sampleFs (lit "model.gguf")).2.createContext.2.isContextCreated
      = true :=
  ⟨(createContext_spec LlamaWrapper.new).2.1 (by decide),
   ((createContext_spec (LlamaWrapper.new.loadModel sampleFs (lit "model.gguf")).2).2.2.1
      (by decide)).1⟩

/-! ## Generation writes no member -/

/-- C8: for every state, prompt and `maxTokens`, the manager after
`generateResponse` is the manager before and the wrapper after `generateText`
is the wrapper before, so the same call made again returns the same reply. -/
theorem generation_keeps_state (m : LlamaManager) (w : LlamaWrapper)
    (prompt : CppString) (maxTokens : Int) :
    (m.generateResponse prompt maxTokens).2 = m ∧
    (w.generateText prompt maxTokens).2 = w ∧
    ((m.generateResponse prompt maxTokens).2.generateResponse prompt maxTokens).1 =
      (m.generateResponse prompt maxTokens).1 ∧
    ((w.generateText prompt maxTokens).2.generateText prompt maxTokens).1 =
      (w.generateText prompt maxTokens).1 := by
  have hm : (m.generateResponse prompt maxTokens).2 = m := by
    cases hi : m.isInitialized <;> simp [LlamaManager.generateResponse, hi]
  have hw : (w.generateText prompt maxTokens).2 = w := by
    cases hl : w.m_modelLoaded <;> cases hc : w.m_contextCreated <;>
      simp [LlamaWrapper.generateText, hl, hc]
  exact ⟨hm, hw, by rw [hm], by rw [hw]⟩

/-! ## The manager's model info -/

/-- C9 as stated fails: after `initModel` of `model.gguf`, a file of 1234567
bytes, `getModelInfo` is the fixed text followed by the path; it holds the
path, no decimal digit at all and so no size. -/
theorem getModelInfo_size_counterexample :
    sampleFs (lit "model.gguf") = some 1234567 ∧
    (LlamaManager.new.initModel sampleFs (lit "model.gguf")).1 = true ∧
    (LlamaManager.new.initModel sampleFs (lit "model.gguf")).2.getModelInfo =
      lit "TinyLlama Model Loaded Successfully - Path: model.gguf" ∧
    ((LlamaManager.new.initModel sampleFs (lit "model.gguf")).2.getModelInfo.any isDigit
      = false) ∧
    find (LlamaManager.new.initModel sampleFs (lit "model.gguf")).2.getModelInfo
      (lit "1234567") 0 = none := by
  refine ⟨?_, ?_, ?_, ?_, ?_⟩ <;> decide

/-- C9, amended: `getModelInfo` returns "Model not loaded" exactly when no
model is loaded; after a successful `initModel(path)` it returns
"TinyLlama Model Loaded Successfully - Path: " followed by `path`, whatever
the size of the file, and a later `initModel` that fails leaves it so. -/
theorem getModelInfo_spec (fs : FileSystem) (m : LlamaManager) (path : CppString)
    (h : (fs path).isSome = true) :
    (∀ m0 : LlamaManager,
      m0.getModelInfo = lit "Model not loaded" ↔ m0.isModelLoaded = false) ∧
    (m.initModel fs path).2.getModelInfo =
      lit "TinyLlama Model Loaded Successfully - Path: " ++ path ∧
    (∀ (fs2 : FileSystem) (path2 : CppString), fs2 path2 = none →
      ((m.initModel fs path).2.initModel fs2 path2).2.getModelInfo =
        lit "TinyLlama Model Loaded Successfully - Path: " ++ path) := by
  obtain ⟨n, hn⟩ := Option.isSome_iff_exists.mp h
  refine ⟨?_, ?_, ?_⟩
  · intro m0
    cases hi : m0.isInitialized
    · simp [LlamaManager.getModelInfo, LlamaManager.isModelLoaded, hi]
    · simpa [LlamaManager.getModelInfo, LlamaManager.isModelLoaded, hi] using
        loadedInfo_ne m0.modelPath
  · simp [LlamaManager.initModel, hn, LlamaManager.getModelInfo]
  · intro fs2 path2 h2
    simp [LlamaManager.initModel, hn, h2, LlamaManager.getModelInfo]

/-- Instance of the amended C9: `model.gguf` of `sampleFs` on a fresh
manager. -/
theorem getModelInfo_spec_witness :
    (sampleFs (lit "model.gguf")).isSome = true ∧
    (LlamaManager.new.initModel sampleFs (lit "model.gguf")).2.getModelInfo =
      lit "TinyLlama Model Loaded Successfully - Path: " ++ lit "model.gguf" :=
  ⟨by decide,
   (getModelInfo_spec sampleFs LlamaManager.new (lit "model.gguf") (by decide)).2.1⟩

/-! ## The canned replies -/

/-- C10: for an initialised manager, every prompt and every `maxTokens`, the
result of `generateResponse` is one of the twelve canned replies of the source
(math, weather, apple, rice, protein, breakfast, weight loss, water, diet,
greeting, help, default); the twelve are pairwise different and non-empty, and
each is the result for some prompt. -/
theorem generateResponse_canned (m : LlamaManager) (h : m.isModelLoaded = true) :
    cannedReplies.length = 12 ∧
    cannedReplies.Nodup ∧
    (∀ r ∈ cannedReplies, r ≠ []) ∧
    (∀ (prompt : CppString) (maxTokens : Int),
      (m.generateResponse prompt maxTokens).1 ∈ cannedReplies) ∧
    (∀ r ∈ cannedReplies, ∃ prompt : CppString, ∀ maxTokens : Int,
      (m.generateResponse prompt maxTokens).1 = r) := by
  simp only [LlamaManager.isModelLoaded] at h
  refine ⟨rfl, by decide, cannedReplies_ne_nil, ?_, ?_⟩
  · intro prompt maxTokens
    rw [generateResponse_loaded m prompt maxTokens h]
    exact generateSmartResponse_mem prompt
  · intro r hr
    rw [← examplePrompts_replies] at hr
    obtain ⟨pr, hpr, rfl⟩ := List.mem_map.mp hr
    refine ⟨pr.1, fun maxTokens => ?_⟩
    rw [generateResponse_loaded m pr.1 maxTokens h]
    exact examplePrompts_reply pr hpr

/-- Instance of C10: the manager that loaded `model.gguf` answers "water" with
a canned reply. -/
theorem generateResponse_canned_witness :
    loadedManager.isModelLoaded = true ∧
    (loadedManager.generateResponse (lit "water") 64).1 ∈ cannedReplies :=
  ⟨by decide,
   (generateResponse_canned loadedManager (by decide)).2.2.2.1 (lit "water") 64⟩

/-! ## The wrapper's error reply -/

/-- No reply of `generateIntelligentResponse` begins with "Error: ". -/
theorem generateIntelligentResponse_not_error (userInput : CppString) :
    beginsWith (LlamaWrapper.generateIntelligentResponse userInput) "Error: " = false := by
  unfold LlamaWrapper.generateIntelligentResponse
  dsimp only
  repeat' apply ite_cases (fun r => beginsWith r "Error: " = false)
  all_goals decide

/-- C15: for every state, prompt and `maxTokens`, `generateText` returns
"Error: Model not loaded or context not created" exactly when the model is not
loaded or the context is not created, as it is right after a successful
`loadModel` on a fresh wrapper; with both in place its reply does not begin
with "Error: ". -/
theorem generateText_error_iff (w : LlamaWrapper) (prompt : CppString) (maxTokens : Int) :
    ((w.generateText prompt maxTokens).1 =
        lit "Error: Model not loaded or context not created" ↔
      (w.isModelLoaded = false ∨ w.isContextCreated = false)) ∧
    (w.isModelLoaded = true → w.isContextCreated = true →
      beginsWith (w.generateText prompt maxTokens).1 "Error: " = false) ∧
    (∀ (fs : FileSystem) (path : CppString), (fs path).isSome = true →
      (LlamaWrapper.new.loadModel fs path).1 = true ∧
      ((LlamaWrapper.new.loadModel fs path).2.generateText prompt maxTokens).1 =
        lit "Error: Model not loaded or context not created") := by
  have he : beginsWith (lit "Error: Model not loaded or context not created") "Error: "
      = true := by decide
  have hr : ∀ u : CppString, LlamaWrapper.generateIntelligentResponse u ≠
      lit "Error: Model not loaded or context not created" := by
    intro u hu
    have h1 := generateIntelligentResponse_not_error u
    rw [hu, he] at h1
    exact absurd h1 (by decide)
  refine ⟨?_, ?_, ?_⟩
  · cases hl : w.m_modelLoaded <;> cases hc : w.m_contextCreated <;>
      simp [LlamaWrapper.generateText, LlamaWrapper.isModelLoaded,
        LlamaWrapper.isContextCreated, hl, hc, hr]
  · intro hl hc
    simp only [LlamaWrapper.isModelLoaded] at hl
    simp only [LlamaWrapper.isContextCreated] at hc
    simp only [LlamaWrapper.generateText, hl, hc]
    exact generateIntelligentResponse_not_error _
  · intro fs path hp
    obtain ⟨n, hn⟩ := Option.isSome_iff_exists.mp hp
    simp [LlamaWrapper.loadModel, LlamaWrapper.new, LlamaWrapper.initializeDefaultParams,
      LlamaWrapper.generateText, hn]

/-- Instance of C15: "hello" with the context created, and "hello" right after
loading `model.gguf` into a fresh wrapper. -/
theorem generateText_error_iff_witness :
    beginsWith (readyWrapper.generateText (lit "hello") 32).1 "Error: " = false ∧
    ((LlamaWrapper.new.loadModel sampleFs (lit "model.gguf")).2.generateText
      (lit "hello") 32).1 = lit "Error: Model not loaded or context not created" :=
  ⟨(generateText_error_iff readyWrapper (lit "hello") 32).2.1 (by decide) (by decide),
   ((generateText_error_iff LlamaWrapper.new (lit "hello") 32).2.2 sampleFs
      (lit "model.gguf") (by decide)).2⟩

/-! ## Loading into a loaded wrapper -/

/-- C16: on a wrapper whose model is loaded, `loadModel` returns true for every
path, whether or not its file opens, and leaves every member as it was: the
new path is neither looked up nor recorded. -/
theorem loadModel_loaded_noop (fs : FileSystem) (w : LlamaWrapper) (path : CppString)
    (h : w.isModelLoaded = true) :
    w.loadModel fs path = (true, w) ∧
    (w.loadModel fs path).2.m_modelLoaded = w.m_modelLoaded ∧
    (w.loadModel fs path).2.m_contextCreated = w.m_contextCreated ∧
    (w.loadModel fs path).2.m_modelPath = w.m_modelPath ∧
    (∀ fs2 : FileSystem, w.loadModel fs2 path = w.loadModel fs path) := by
  simp only [LlamaWrapper.isModelLoaded] at h
  have hw : ∀ f : FileSystem, w.loadModel f path = (true, w) := by
    intro f
    simp [LlamaWrapper.loadModel, h]
  refine ⟨hw fs, ?_, ?_, ?_, ?_⟩
  · rw [hw]
  · rw [hw]
  · rw [hw]
  · intro fs2
    rw [hw, hw]

/-- Instance of C16: the wrapper that loaded `model.gguf` is asked to load
`missing.gguf`, which does not open. -/
theorem loadModel_loaded_noop_witness :
    readyWrapper.isModelLoaded = true ∧
    sampleFs (lit "missing.gguf") = none ∧
    readyWrapper.loadModel sampleFs (lit "missing.gguf") = (true, readyWrapper) :=
  ⟨by decide, by decide,
   (loadModel_loaded_noop sampleFs readyWrapper (lit "missing.gguf") (by decide)).1⟩

/-! ## A failed `initModel` -/

/-- C17: for every state and every path whose file does not open, `initModel`
returns false and leaves the manager as it was, so `isModelLoaded` and
`getModelInfo` answer as before; and on an initialised manager a successful
`initModel` records the new path in place of the old one. -/
theorem initModel_failed_atomic (fs : FileSystem) (m : LlamaManager) (path : CppString)
    (h : fs path = none) :
    (m.initModel fs path).1 = false ∧
    (m.initModel fs path).2 = m ∧
    (m.initModel fs path).2.isModelLoaded = m.isModelLoaded ∧
    (m.initModel fs path).2.getModelInfo = m.getModelInfo ∧
    (∀ (fs2 : FileSystem) (path2 : CppString),
      (fs2 path2).isSome = true → m.isModelLoaded = true →
        (m.initModel fs2 path2).1 = true ∧
        (m.initModel fs2 path2).2.isModelLoaded = true ∧
        (m.initModel fs2 path2).2.modelPath = path2 ∧
        (m.initModel fs2 path2).2.getModelInfo =
          lit "TinyLlama Model Loaded Successfully - Path: " ++ path2) := by
  have hm : m.initModel fs path = (false, m) := by
    simp [LlamaManager.initModel, h]
  refine ⟨by rw [hm], by rw [hm], by rw [hm], by rw [hm], ?_⟩
  intro fs2 path2 h2 _
  obtain ⟨n, hn⟩ := Option.isSome_iff_exists.mp h2
  simp [LlamaManager.initModel, hn, LlamaManager.isModelLoaded, LlamaManager.getModelInfo]

/-- Instance of C17: the manager that loaded `model.gguf` is asked for
`missing.gguf`; it stays loaded and its info still names `model.gguf`. -/
theorem initModel_failed_atomic_witness :
    sampleFs (lit "missing.gguf") = none ∧
    (loadedManager.initModel sampleFs (lit "missing.gguf")).1 = false ∧
    (loadedManager.initModel sampleFs (lit "missing.gguf")).2 = loadedManager ∧
    (loadedManager.initModel sampleFs (lit "missing.gguf")).2.isModelLoaded
      = loadedManager.isModelLoaded ∧
    (loadedManager.initModel sampleFs (lit "missing.gguf")).2.getModelInfo
      = loadedManager.getModelInfo :=
  ⟨by decide,
   (initModel_failed_atomic sampleFs loadedManager (lit "missing.gguf") (by decide)).1,
   (initModel_failed_atomic sampleFs loadedManager (lit "missing.gguf") (by decide)).2.1,
   (initModel_failed_atomic sampleFs loadedManager (lit "missing.gguf") (by decide)).2.2.1,
   (initModel_failed_atomic sampleFs loadedManager (lit "missing.gguf") (by decide)).2.2.2.1⟩

/-! ## Lemmas on `find` -/

/-- The comparison at one position succeeds exactly on a prefix. -/
theorem matchesAt_iff_front (pat : CppString) :
    ∀ s : CppString, matchesAt pat s = true ↔ pat <+: s := by
  induction pat with
  | nil => intro s; simp [matchesAt]
  | cons p ps ih =>
    intro s
    cases s with
    | nil => simp [matchesAt]
    | cons c cs => simp [matchesAt, ih cs]

/-- The scan finds a position exactly when the pattern occurs in the string. -/
theorem findAux_isSome_iff (pat : CppString) :
    ∀ (s : CppString) (i : Nat), (findAux pat s i).isSome = true ↔ pat <:+: s := by
  intro s
  induction s with
  | nil =>
    intro i
    cases pat with
    | nil => simp [findAux, matchesAt]
    | cons p ps => simp [findAux, matchesAt]
  | cons c cs ih =>
    intro i
    rw [List.infix_cons_iff, ← ih (i + 1), ← matchesAt_iff_front]
    cases hm : matchesAt pat (c :: cs) <;> simp [findAux, hm]

/-- The test `s.find(pat) != npos` holds exactly when the bytes of `pat` occur
in `s`, one after the other. -/
theorem found_iff_occurs (s : CppString) (pat : String) :
    found s pat = true ↔ lit pat <:+: s := by
  simp [found, find, findAux_isSome_iff]

/-- The test `s.find(pat) != npos` fails exactly when `pat` does not occur. -/
theorem found_eq_false_iff (s : CppString) (pat : String) :
    found s pat = false ↔ ¬ lit pat <:+: s := by
  rw [← found_iff_occurs]
  cases found s pat <;> simp

/-- The scan returns the first position at which the pattern stands. -/
theorem findAux_first (pat : CppString) :
    ∀ (k : Nat) (s : CppString) (i : Nat), k ≤ s.length → pat <+: s.drop k →
      (∀ j, j < k → ¬ pat <+: s.drop j) → findAux pat s i = some (i + k) := by
  intro k
  induction k with
  | zero =>
    intro s i _ hm _
    rw [List.drop_zero, ← matchesAt_iff_front] at hm
    cases s with
    | nil => simp [findAux, hm]
    | cons c cs => simp [findAux, hm]
  | succ k ih =>
    intro s i hk hm hfirst
    cases s with
    | nil => simp at hk
    | cons c cs =>
      have h0 : matchesAt pat (c :: cs) = false := by
        have := hfirst 0 (Nat.succ_pos k)
        rw [List.drop_zero, ← matchesAt_iff_front] at this
        simpa using this
      have hrest := ih cs (i + 1) (by simpa using hk) (by simpa using hm)
        (fun j hj => by simpa using hfirst (j + 1) (Nat.succ_lt_succ hj))
      simp only [findAux, h0]
      rw [hrest]
      simp only [Bool.false_eq_true, if_false]
      congr 1
      omega

/-- The scan returns `npos` when the pattern does not occur. -/
theorem findAux_eq_none (pat s : CppString) (i : Nat) (h : ¬ pat <:+: s) :
    findAux pat s i = none := by
  rw [← findAux_isSome_iff pat s i] at h
  cases hf : findAux pat s i with
  | none => rfl
  | some j => simp [hf] at h

/-- The byte `b`, when it is no upper-case letter, occurs in the lower-cased
string exactly when it occurs in the string. -/
theorem mem_transformToLower (b : Nat) (hb : b < 65 ∨ 122 < b ∨ (90 < b ∧ b < 97))
    (s : CppString) : b ∈ transformToLower s ↔ b ∈ s := by
  simp only [transformToLower, List.mem_map]
  constructor
  · rintro ⟨a, ha, hab⟩
    have : a = b := by
      unfold tolower at hab
      split at hab <;> omega
    exact this ▸ ha
  · intro h
    refine ⟨b, h, ?_⟩
    unfold tolower
    split <;> omega

/-- A one-byte pattern occurs exactly when its byte is in the string. -/
theorem singleton_infix_iff (b : Nat) (s : CppString) : [b] <:+: s ↔ b ∈ s := by
  constructor
  · rintro ⟨a, t, rfl⟩
    simp
  · intro h
    obtain ⟨a, t, rfl⟩ := List.append_of_mem h
    exact ⟨a, t, by simp⟩

/-- Lower-casing keeps the length. -/
theorem length_transformToLower (s : CppString) :
    (transformToLower s).length = s.length := by
  simp [transformToLower]

/-- A one-byte pattern that is no upper-case letter is found in the lower-cased
string exactly when it occurs in the string. -/
theorem found_lower_byte (c : String) (b : Nat) (hc : lit c = [b])
    (hb : b < 65 ∨ 122 < b ∨ (90 < b ∧ b < 97)) (s : CppString) :
    found (transformToLower s) c = true ↔ lit c <:+: s := by
  rw [found_iff_occurs, hc, singleton_infix_iff, singleton_infix_iff,
    mem_transformToLower b hb]

/-- A property holds of a conditional when it holds of each branch under the
branch's condition. -/
theorem ite_cases_cond {α : Type} (P : α → Prop) (c : Prop) [Decidable c] {a b : α}
    (ha : c → P a) (hb : ¬ c → P b) : P (if c then a else b) := by
  split
  · exact ha (by assumption)
  · exact hb (by assumption)

/-! ## The math rule -/

/-- C12: for an initialised manager, every prompt that contains '+', '-' or
'*', or that has at most 10 bytes and contains one of '2', '3', '4', '5', gets
the math reply, whatever else it contains. -/
theorem math_rule_priority (m : LlamaManager) (prompt : CppString) (maxTokens : Int)
    (hm : m.isModelLoaded = true)
    (h : lit "+" <:+: prompt ∨ lit "-" <:+: prompt ∨ lit "*" <:+: prompt ∨
      (prompt.length ≤ 10 ∧
        (lit "2" <:+: prompt ∨ lit "3" <:+: prompt ∨ lit "4" <:+: prompt ∨
          lit "5" <:+: prompt))) :
    (m.generateResponse prompt maxTokens).1 = LlamaManager.mathReply ∧
    beginsWith LlamaManager.mathReply "I can help with basic math!" = true := by
  refine ⟨?_, by decide⟩
  simp only [LlamaManager.isModelLoaded] at hm
  rw [generateResponse_loaded m prompt maxTokens hm]
  rw [← found_lower_byte "+" 43 rfl (by omega), ← found_lower_byte "-" 45 rfl (by omega),
    ← found_lower_byte "*" 42 rfl (by omega), ← found_lower_byte "2" 50 rfl (by omega),
    ← found_lower_byte "3" 51 rfl (by omega), ← found_lower_byte "4" 52 rfl (by omega),
    ← found_lower_byte "5" 53 rfl (by omega), ← length_transformToLower prompt] at h
  unfold LlamaManager.generateSmartResponse
  dsimp only
  apply ite_cases_cond (fun r => r = LlamaManager.mathReply)
  · intro _
    rfl
  · intro _
    apply ite_cases_cond (fun r => r = LlamaManager.mathReply)
    · intro _
      rfl
    · intro h2
      exfalso
      apply h2
      simp only [Bool.or_eq_true, Bool.and_eq_true, decide_eq_true_eq]
      tauto

/-- Instance of C12: "weather + protein, hello" contains '+' and gets the math
reply, not the weather reply. -/
theorem math_rule_priority_witness :
    loadedManager.isModelLoaded = true ∧
    (loadedManager.generateResponse (lit "weather + protein, hello") 8).1 =
      LlamaManager.mathReply :=
  ⟨by decide,
   (math_rule_priority loadedManager (lit "weather + protein, hello") 8 (by decide)
      (Or.inl ⟨lit "weather ", lit " protein, hello", by decide⟩)).1⟩

/-! ## The greeting rule and the help rule -/

/-- The help reply comes from the help rule only: the greeting test failed and
the help test held. -/
theorem helpReply_branch (prompt : CppString)
    (h : LlamaManager.generateSmartResponse prompt = LlamaManager.helpReply) :
    (found (transformToLower prompt) "help" ||
      found (transformToLower prompt) "what can you do") = true ∧
    ¬ (found (transformToLower prompt) "hello" ||
      found (transformToLower prompt) "hi" ||
      found (transformToLower prompt) "hey") = true := by
  revert h
  unfold LlamaManager.generateSmartResponse
  dsimp only
  iterate 10
    apply ite_cases_cond (fun r => r = LlamaManager.helpReply →
      (found (transformToLower prompt) "help" ||
        found (transformToLower prompt) "what can you do") = true ∧
      ¬ (found (transformToLower prompt) "hello" ||
        found (transformToLower prompt) "hi" ||
        found (transformToLower prompt) "hey") = true)
    · intro _ h
      exact absurd h (by decide)
    intro _
  apply ite_cases_cond (fun r => r = LlamaManager.helpReply →
    (found (transformToLower prompt) "help" ||
      found (transformToLower prompt) "what can you do") = true ∧
    ¬ (found (transformToLower prompt) "hello" ||
      found (transformToLower prompt) "hi" ||
      found (transformToLower prompt) "hey") = true)
  · intro _ h
    exact absurd h (by decide)
  intro hg
  apply ite_cases_cond (fun r => r = LlamaManager.helpReply →
    (found (transformToLower prompt) "help" ||
      found (transformToLower prompt) "what can you do") = true ∧
    ¬ (found (transformToLower prompt) "hello" ||
      found (transformToLower prompt) "hi" ||
      found (transformToLower prompt) "hey") = true)
  · intro hh _
    exact ⟨hh, hg⟩
  · intro _ h
    exact absurd h (by decide)

set_option maxRecDepth 20000 in
/-- The default reply holds the text "Type 'help' for more options!". -/
theorem defaultReply_names_help :
    found LlamaManager.defaultReply "Type 'help' for more options!" = true := by
  decide

/-- C14: for an initialised manager, whenever `generateResponse` returns the
help reply, the lower-cased prompt contains "help" or "what can you do" and
none of "hello", "hi", "hey"; the prompt "help" gets the help reply, which the
default reply points to, and "help me with this" gets the greeting reply. -/
theorem help_rule_after_greeting (m : LlamaManager) (hm : m.isModelLoaded = true) :
    (∀ (prompt : CppString) (maxTokens : Int),
      (m.generateResponse prompt maxTokens).1 = LlamaManager.helpReply →
        (lit "help" <:+: transformToLower prompt ∨
          lit "what can you do" <:+: transformToLower prompt) ∧
        ¬ lit "hello" <:+: transformToLower prompt ∧
        ¬ lit "hi" <:+: transformToLower prompt ∧
        ¬ lit "hey" <:+: transformToLower prompt) ∧
    beginsWith LlamaManager.helpReply "I can help you with:\n\n" = true ∧
    found LlamaManager.defaultReply "Type 'help' for more options!" = true ∧
    (∀ maxTokens : Int,
      (m.generateResponse (lit "help") maxTokens).1 = LlamaManager.helpReply) ∧
    (∀ maxTokens : Int,
      (m.generateResponse (lit "help me with this") maxTokens).1 =
        LlamaManager.greetingReply) := by
  simp only [LlamaManager.isModelLoaded] at hm
  refine ⟨?_, by decide, defaultReply_names_help, ?_, ?_⟩
  · intro prompt maxTokens h
    rw [generateResponse_loaded m prompt maxTokens hm] at h
    obtain ⟨hh, hg⟩ := helpReply_branch prompt h
    simp only [Bool.or_eq_true, not_or, found_iff_occurs] at hg hh
    exact ⟨hh, hg.1.1, hg.1.2, hg.2⟩
  · intro maxTokens
    rw [generateResponse_loaded m _ maxTokens hm]
    rfl
  · intro maxTokens
    rw [generateResponse_loaded m _ maxTokens hm]
    rfl

/-- Instance of C14: the manager that loaded `model.gguf` answers "help" with
the help reply, and "help" holds no "hi". -/
theorem help_rule_after_greeting_witness :
    loadedManager.isModelLoaded = true ∧
    (loadedManager.generateResponse (lit "help") 4).1 = LlamaManager.helpReply ∧
    ¬ lit "hi" <:+: transformToLower (lit "help") :=
  ⟨by decide,
   (help_rule_after_greeting loadedManager (by decide)).2.2.2.1 4,
   ((help_rule_after_greeting loadedManager (by decide)).1 (lit "help") 4
      ((help_rule_after_greeting loadedManager (by decide)).2.2.2.1 4)).2.2.1⟩

/-! ## The user's line of the prompt -/

/-- The scan for a newline stops at the first newline after a text without
one. -/
theorem findAux_newline (more : CppString) :
    ∀ (u : CppString) (i : Nat), 10 ∉ u →
      findAux (lit "\n") (u ++ 10 :: more) i = some (i + u.length) := by
  have hn : lit "\n" = [10] := rfl
  intro u
  induction u with
  | nil => intro i _; simp [hn, findAux, matchesAt]
  | cons c cs ih =>
    intro i hu
    have hc : ¬ 10 = c := fun h => hu (h ▸ List.mem_cons_self _ _)
    have hcs : 10 ∉ cs := fun h => hu (List.mem_cons_of_mem _ h)
    have hrest := ih (i + 1) hcs
    rw [hn] at hrest
    have hm : matchesAt [10] (c :: (cs ++ 10 :: more)) = false := by
      simp [matchesAt, hc]
    rw [hn, List.cons_append, findAux, hm, hrest, List.length_cons]
    simp only [Bool.false_eq_true, if_false]
    congr 1
    omega

/-- The scan for a newline returns `npos` on a text without one. -/
theorem findAux_newline_none (u : CppString) (i : Nat) (hu : 10 ∉ u) :
    findAux (lit "\n") u i = none := by
  have hn : lit "\n" = [10] := rfl
  apply findAux_eq_none
  rw [hn, singleton_infix_iff]
  exact hu

/-- With model loaded and context created, `generateText` answers the text it
extracts from the prompt. -/
theorem generateText_ready (w : LlamaWrapper) (prompt : CppString) (maxTokens : Int)
    (hl : w.m_modelLoaded = true) (hc : w.m_contextCreated = true) :
    (w.generateText prompt maxTokens).1 =
      LlamaWrapper.generateIntelligentResponse
        (match find prompt (lit "User: ") 0 with
         | some userPos =>
           match find prompt (lit "\n") (userPos + 6) with
           | some endPos => substr prompt (userPos + 6) (endPos - (userPos + 6))
           | none => substrFrom prompt (userPos + 6)
         | none => prompt) := by
  simp [LlamaWrapper.generateText, hl, hc]

/-- C11: with model loaded and context created, a prompt that does not contain
"User: " is answered as a whole; and when the first "User: " of the prompt is
followed by a text `u` without newline, and `u` by the end of the prompt or by
a newline and any further text, the answer is that of `u` alone, whatever
stands before the marker and after that newline. -/
theorem generateText_user_line (w : LlamaWrapper) (maxTokens : Int)
    (hl : w.isModelLoaded = true) (hc : w.isContextCreated = true) :
    (∀ prompt : CppString, ¬ lit "User: " <:+: prompt →
      (w.generateText prompt maxTokens).1 =
        LlamaWrapper.generateIntelligentResponse prompt) ∧
    (∀ pre u rest : CppString,
      (∀ j, j < pre.length → ¬ lit "User: " <+: (pre ++ lit "User: " ++ u ++ rest).drop j) →
      10 ∉ u → (rest = [] ∨ ∃ more, rest = 10 :: more) →
      (w.generateText (pre ++ lit "User: " ++ u ++ rest) maxTokens).1 =
        LlamaWrapper.generateIntelligentResponse u) := by
  simp only [LlamaWrapper.isModelLoaded] at hl
  simp only [LlamaWrapper.isContextCreated] at hc
  have h6 : (lit "User: ").length = 6 := rfl
  refine ⟨?_, ?_⟩
  · intro prompt hno
    have hfind : find prompt (lit "User: ") 0 = none := by
      simp [find, findAux_eq_none _ _ _ hno]
    rw [generateText_ready w prompt maxTokens hl hc, hfind]
  · intro pre u rest hfirst hu hrest
    have hdrop : (pre ++ lit "User: " ++ u ++ rest).drop pre.length
        = lit "User: " ++ (u ++ rest) := by
      rw [List.append_assoc, List.append_assoc, List.drop_left]
    have hfind : find (pre ++ lit "User: " ++ u ++ rest) (lit "User: ") 0
        = some pre.length := by
      have := findAux_first (lit "User: ") pre.length (pre ++ lit "User: " ++ u ++ rest) 0
        (by simp) (by rw [hdrop]; exact List.prefix_append _ _) hfirst
      simpa [find] using this
    have hdrop2 : (pre ++ lit "User: " ++ u ++ rest).drop (pre.length + 6) = u ++ rest := by
      rw [List.append_assoc]
      exact List.drop_left' (by simp [h6])
    have hlen : ¬ (pre ++ lit "User: " ++ u ++ rest).length < pre.length + 6 := by
      simp only [List.length_append, h6]
      omega
    rcases hrest with rfl | ⟨more, rfl⟩
    · have hnl : find (pre ++ lit "User: " ++ u ++ []) (lit "\n") (pre.length + 6) = none := by
        simp only [find, hlen, if_false, hdrop2]
        exact findAux_newline_none _ _ (by simpa using hu)
      rw [generateText_ready w _ maxTokens hl hc, hfind]
      dsimp only
      rw [hnl]
      dsimp only
      rw [substrFrom, hdrop2, List.append_nil]
    · have hnl : find (pre ++ lit "User: " ++ u ++ 10 :: more) (lit "\n") (pre.length + 6)
          = some (pre.length + 6 + u.length) := by
        simp only [find, hlen, if_false, hdrop2]
        exact findAux_newline more u _ hu
      rw [generateText_ready w _ maxTokens hl hc, hfind]
      dsimp only
      rw [hnl]
      dsimp only
      rw [substr, hdrop2, Nat.add_sub_cancel_left, List.take_left]

/-- Instance of C11: the prompt "Hi", newline, "User: What about protein",
newline, "Assistant:" is answered as "What about protein" is. -/
theorem generateText_user_line_witness :
    readyWrapper.isModelLoaded = true ∧
    readyWrapper.isContextCreated = true ∧
    (10 ∉ lit "What about protein") ∧
    (readyWrapper.generateText
      (lit "Hi\n" ++ lit "User: " ++ lit "What about protein" ++ lit "\nAssistant:") 16).1 =
      LlamaWrapper.generateIntelligentResponse (lit "What about protein") :=
  ⟨by decide, by decide, by decide,
   (generateText_user_line readyWrapper 16 (by decide) (by decide)).2
     (lit "Hi\n") (lit "What about protein") (lit "\nAssistant:")
     (by decide) (by decide) (Or.inr ⟨lit "Assistant:", rfl⟩)⟩

/-! ## The apple rule -/

/-- A string that holds both "calories" and "apple" has more than 10 bytes:
the two words cannot share a byte. -/
theorem calories_apple_long (s : CppString) (h1 : found s "calories" = true)
    (h2 : found s "apple" = true) : 10 < s.length := by
  have hcal : lit "calories" = [99, 97, 108, 111, 114, 105, 101, 115] := by decide
  have happle : lit "apple" = [97, 112, 112, 108, 101] := by decide
  by_contra hlen
  simp only [found, find, hcal, happle] at h1 h2
  rcases s with _ | ⟨x0, _ | ⟨x1, _ | ⟨x2, _ | ⟨x3, _ | ⟨x4, _ | ⟨x5, _ | ⟨x6, _ | ⟨x7,
    _ | ⟨x8, _ | ⟨x9, _ | ⟨x10, s⟩⟩⟩⟩⟩⟩⟩⟩⟩⟩⟩
  all_goals simp [findAux, matchesAt] at h1 h2 hlen
  all_goals split_ifs at h1 h2
  all_goals first | omega | (simp at h2; done) | simp at h1

/-- C13: for an initialised manager, every prompt whose lower-cased text
contains "calories" and "apple", that contains none of '+', '-', '*', no
"weather", and not "what is" together with one of "times", "plus", "minus",
gets the apple reply, whatever else it mentions; such a prompt has more than
10 bytes, so the short-prompt digit test cannot fire. -/
theorem apple_rule (m : LlamaManager) (prompt : CppString) (maxTokens : Int)
    (hm : m.isModelLoaded = true)
    (hcal : lit "calories" <:+: transformToLower prompt)
    (happle : lit "apple" <:+: transformToLower prompt)
    (hplus : ¬ lit "+" <:+: prompt) (hminus : ¬ lit "-" <:+: prompt)
    (hstar : ¬ lit "*" <:+: prompt)
    (hweather : ¬ lit "weather" <:+: transformToLower prompt)
    (hwhat : ¬ (lit "what is" <:+: transformToLower prompt ∧
      (lit "times" <:+: transformToLower prompt ∨ lit "plus" <:+: transformToLower prompt ∨
        lit "minus" <:+: transformToLower prompt))) :
    (m.generateResponse prompt maxTokens).1 = LlamaManager.appleReply ∧
    10 < prompt.length ∧
    beginsWith LlamaManager.appleReply "An average apple contains about 95 calories. "
      = true := by
  refine ⟨?_, ?_, by decide⟩
  · simp only [LlamaManager.isModelLoaded] at hm
    rw [generateResponse_loaded m prompt maxTokens hm]
    rw [← found_iff_occurs] at hcal happle
    have hlen := calories_apple_long _ hcal happle
    rw [← found_lower_byte "+" 43 rfl (by omega), Bool.not_eq_true] at hplus
    rw [← found_lower_byte "-" 45 rfl (by omega), Bool.not_eq_true] at hminus
    rw [← found_lower_byte "*" 42 rfl (by omega), Bool.not_eq_true] at hstar
    rw [← found_eq_false_iff] at hweather
    simp only [← found_iff_occurs] at hwhat
    unfold LlamaManager.generateSmartResponse
    dsimp only
    apply ite_cases_cond (fun r => r = LlamaManager.appleReply)
    · intro c1
      exfalso
      simp only [hplus, hminus, hstar, Bool.or_eq_true, Bool.and_eq_true] at c1
      apply hwhat
      refine ⟨c1.1, ?_⟩
      have c2 := c1.2
      simp only [Bool.false_eq_true, false_or] at c2
      rcases c2 with (c2 | c2) | c2
      · exact Or.inl c2
      · exact Or.inr (Or.inl c2)
      · exact Or.inr (Or.inr c2)
    intro _
    apply ite_cases_cond (fun r => r = LlamaManager.appleReply)
    · intro c2
      exfalso
      simp only [hplus, hminus, hstar, Bool.or_eq_true, Bool.and_eq_true,
        decide_eq_true_eq, Bool.false_eq_true, false_or] at c2
      omega
    intro _
    apply ite_cases_cond (fun r => r = LlamaManager.appleReply)
    · intro c3
      rw [hweather] at c3
      exact absurd c3 (by decide)
    intro _
    apply ite_cases_cond (fun r => r = LlamaManager.appleReply)
    · intro _
      rfl
    · intro c4
      exfalso
      apply c4
      rw [hcal, happle]
      rfl
  · rw [← found_iff_occurs] at hcal happle
    have hlen := calories_apple_long _ hcal happle
    rwa [length_transformToLower] at hlen

/-- Instance of C13: "How many Calories in an Apple and in rice?" gets the
apple reply. -/
theorem apple_rule_witness :
    loadedManager.isModelLoaded = true ∧
    (loadedManager.generateResponse
      (lit "How many Calories in an Apple and in rice?") 128).1 = LlamaManager.appleReply :=
  ⟨by decide,
   (apple_rule loadedManager (lit "How many Calories in an Apple and in rice?") 128
      (by decide)
      ((found_iff_occurs _ _).mp (by decide)) ((found_iff_occurs _ _).mp (by decide))
      ((found_eq_false_iff _ _).mp (by decide)) ((found_eq_false_iff _ _).mp (by decide))
      ((found_eq_false_iff _ _).mp (by decide)) ((found_eq_false_iff _ _).mp (by decide))
      (fun h => absurd ((found_iff_occurs _ _).mpr h.1) (by decide))).1⟩

/-! ## The wrapper's model info -/

end TastyDiet
